import Mathlib

/-!
# Verification of the OpenPGM transport core

A shallow embedding of `src/openpgm/pgm/transport.c` and
`src/openpgm/pgm/net.c` (OpenPGM reliable multicast transport), together
with theorems settling the specification claims about transport
configuration, socket binding, multicast group membership, and the
locked/rate-regulated `sendto` wrapper.

Machine integers are modelled as `Nat`/`Int`; sockaddr structures are
modelled abstractly as a family tag plus an address value, with
`pgm_sockaddr_cmp` equality.  Fallible external collaborators (socket
calls, `/proc` reads, the notification pipe, SPM emission) are modelled
as oracle outcome fields of explicit environment structures, so every
control path of the embedded C functions is represented.
-/

namespace OpenPGM

/-- The `IP_MAX_MEMBERSHIPS`: capacity of the `recv_gsr` array (default 20). -/
def IP_MAX_MEMBERSHIPS : Nat := 20

/-- Linux `EINVAL` errno, used via `-EINVAL` returns. -/
def EINVAL : Nat := 22

/-- Linux `EAGAIN` errno, "would block". -/
def EAGAIN : Nat := 11

/-- Linux `ENETUNREACH` errno, "Network is unreachable". -/
def ENETUNREACH : Nat := 101

/-- Linux `EHOSTUNREACH` errno, "No route to host". -/
def EHOSTUNREACH : Nat := 113

/-- The `AF_INET` address family tag. -/
def AF_INET : Nat := 2

/-- The `AF_INET6` address family tag. -/
def AF_INET6 : Nat := 10

/-- The `sizeof(struct group_req)` on the modelled platform (Linux: 136 bytes);
used only as the reference value of the length-guard comparisons. -/
def sizeof_group_req : Nat := 136

/-- The `sizeof(struct group_source_req)` on the modelled platform (Linux: 264
bytes); used only as the reference value of the length-guard comparisons. -/
def sizeof_group_source_req : Nat := 264

/-- The `sizeof(struct pgm_ip)`: IPv4 header, 20 bytes. -/
def sizeof_pgm_ip : Nat := 20

/-- The `sizeof(struct pgm_ip6_hdr)`: IPv6 header, 40 bytes. -/
def sizeof_pgm_ip6_hdr : Nat := 40

/-- The `sizeof(struct pgm_udphdr)`: UDP header, 8 bytes. -/
def sizeof_pgm_udphdr : Nat := 8

/-- The `sizeof(struct pgm_header)`: PGM common header, 16 bytes. -/
def sizeof_pgm_header : Nat := 16

/-- The `sizeof(struct pgm_data)`: ODATA/RDATA leading section, 8 bytes. -/
def sizeof_pgm_data : Nat := 8

/-- The `sizeof(struct pgm_opt_length)`. -/
def sizeof_pgm_opt_length : Nat := 4

/-- The `sizeof(struct pgm_opt_header)`. -/
def sizeof_pgm_opt_header : Nat := 3

/-- The `sizeof(struct pgm_opt_fragment)`. -/
def sizeof_pgm_opt_fragment : Nat := 16

/-- The `PGM_MAX_FRAGMENTS` from the library headers. -/
def PGM_MAX_FRAGMENTS : Nat := 16

/-- The `pgm_secs`: seconds to microseconds of PGM time. -/
def pgm_secs (s : Nat) : Nat := s * 1000000

/-- An abstract socket address: `pgm_sockaddr_family` tag plus the address
value.  `pgm_sockaddr_cmp` returning `0` is modelled as equality. -/
structure SockAddr where
  family : Nat
  addr : Nat
deriving DecidableEq, Repr, Inhabited

/-- The `struct group_req`: interface index and multicast group. -/
structure GroupReq where
  gr_interface : Nat
  gr_group : SockAddr
deriving DecidableEq, Repr

/-- The `struct group_source_req`: interface index, multicast group and source
address; also the element type of the transport's `recv_gsr` array. -/
structure GroupSourceReq where
  gsr_interface : Nat
  gsr_group : SockAddr
  gsr_source : SockAddr
deriving DecidableEq, Repr, Inhabited

/-- The observable fields of `struct pgm_transport_t` that the embedded
operations read or write.  Heap-allocated collaborators (`rand_`, the
`pending_notify` channel, the transmit window, the peer hashtable, the rate
regulator, the first receive buffer) are tracked as allocation flags:
`false` = `NULL`, `true` = constructed. -/
structure Transport where
  tsi_sport : Nat
  dport : Nat
  udp_encap_ucast_port : Nat
  udp_encap_mcast_port : Nat
  send_gsr : GroupSourceReq
  recv_gsr : List GroupSourceReq
  is_bound : Bool
  is_destroyed : Bool
  is_nonblocking : Bool
  is_abort_on_reset : Bool
  can_send_data : Bool
  can_send_nak : Bool
  can_recv_data : Bool
  use_multicast_loop : Bool
  max_tpdu : Nat
  max_tsdu : Nat
  max_tsdu_fragment : Nat
  max_apdu : Nat
  hops : Int
  sndbuf : Int
  rcvbuf : Int
  txw_sqns : Nat
  txw_secs : Nat
  txw_max_rte : Nat
  use_proactive_parity : Bool
  use_ondemand_parity : Bool
  use_varpkt_len : Bool
  rs_n : Nat
  rs_k : Nat
  rs_proactive_h : Nat
  spm_ambient_interval : Nat
  iphdr_len : Nat
  next_poll : Nat
  next_ambient_spm : Nat
  rand_ : Bool
  pending_notify : Bool
  window : Bool
  peers_hashtable : Bool
  rate_control : Bool
  rx_buffer : Bool
deriving DecidableEq, Repr

/-- The `pgm_transport_pkt_offset` (transport.c): offset of TPDU payload past
the PGM header, data section and, when fragmenting, the fragment options. -/
def pgm_transport_pkt_offset (can_fragment : Bool) : Nat :=
  if can_fragment then
    sizeof_pgm_header + sizeof_pgm_data + sizeof_pgm_opt_length
      + sizeof_pgm_opt_header + sizeof_pgm_opt_fragment
  else
    sizeof_pgm_header + sizeof_pgm_data

/-! ## Configurators

Each `pgm_transport_set_*` returns `gboolean`, i.e. a C `int`: `0` is
`FALSE`, nonzero is truthy.  We model the return as `Int` because
`set_sndbuf`/`set_rcvbuf` return `-EINVAL` (nonzero!) from one guard. -/

/-- The `pgm_transport_set_max_tpdu` (transport.c): guards `!is_bound` and
`max_tpdu >= sizeof(struct pgm_ip) + sizeof(struct pgm_header)`, then
stores `max_tpdu` under the mutex. -/
def pgm_transport_set_max_tpdu (t : Transport) (max_tpdu : Nat) : Int × Transport :=
  if t.is_bound = false ∧ sizeof_pgm_ip + sizeof_pgm_header ≤ max_tpdu then
    (1, { t with max_tpdu := max_tpdu })
  else (0, t)

/-- The `pgm_transport_set_multicast_loop` (transport.c): guards `!is_bound`,
then stores `use_multicast_loop`. -/
def pgm_transport_set_multicast_loop (t : Transport) (use_multicast_loop : Bool) :
    Int × Transport :=
  if t.is_bound = false then (1, { t with use_multicast_loop := use_multicast_loop })
  else (0, t)

/-- The `pgm_transport_set_hops` (transport.c): guards `!is_bound` and
`0 < hops < 256`, then stores `hops`. -/
def pgm_transport_set_hops (t : Transport) (hops : Int) : Int × Transport :=
  if t.is_bound = false ∧ 0 < hops ∧ hops < 256 then (1, { t with hops := hops })
  else (0, t)

/-- The `pgm_transport_set_sndbuf` (transport.c): guards `!is_bound` and
`size > 0`; when `/proc/sys/net/core/wmem_max` is readable (`wmem_max =
some w`) a size above `w` aborts with return value `-EINVAL` (note: as a
`gboolean` this is nonzero); otherwise stores `sndbuf`. -/
def pgm_transport_set_sndbuf (t : Transport) (size : Int) (wmem_max : Option Int) :
    Int × Transport :=
  if t.is_bound = false ∧ 0 < size then
    match wmem_max with
    | some w => if size ≤ w then (1, { t with sndbuf := size })
                else (-(EINVAL : Int), t)
    | none => (1, { t with sndbuf := size })
  else (0, t)

/-- The `pgm_transport_set_rcvbuf` (transport.c): as `set_sndbuf` with
`/proc/sys/net/core/rmem_max` and the `rcvbuf` field. -/
def pgm_transport_set_rcvbuf (t : Transport) (size : Int) (rmem_max : Option Int) :
    Int × Transport :=
  if t.is_bound = false ∧ 0 < size then
    match rmem_max with
    | some r => if size ≤ r then (1, { t with rcvbuf := size })
                else (-(EINVAL : Int), t)
    | none => (1, { t with rcvbuf := size })
  else (0, t)

/-- The `pgm_transport_set_fec` (transport.c): guards `(k & (k-1)) == 0`,
`2 ≤ k ≤ 128`, `k+1 ≤ n ≤ 255`, `proactive_h ≤ h` for `h = n - k`, and
(for `k > 223`) `h·223/k ≥ 1` — the last compares exactly-representable
doubles, i.e. `h·223 < k` fails.  No `is_bound` guard.  On success stores
the FEC configuration under the mutex. -/
def pgm_transport_set_fec (t : Transport) (proactive_h : Nat)
    (use_ondemand_parity use_varpkt_len : Bool) (default_n default_k : Nat) :
    Int × Transport :=
  if default_k &&& (default_k - 1) = 0 ∧ (2 ≤ default_k ∧ default_k ≤ 128) ∧
      (default_k + 1 ≤ default_n ∧ default_n ≤ 255) ∧
      proactive_h ≤ default_n - default_k ∧
      ¬ (223 < default_k ∧ (default_n - default_k) * 223 < default_k) then
    (1, { t with
    use_proactive_parity := 0 < proactive_h
    use_ondemand_parity := use_ondemand_parity
    use_varpkt_len := use_varpkt_len
    rs_n := default_n
    rs_k := default_k
    rs_proactive_h := proactive_h })
  else (0, t)

/-- The `pgm_transport_set_send_only` (transport.c): no `is_bound` guard;
stores `can_recv_data := !send_only`. -/
def pgm_transport_set_send_only (t : Transport) (send_only : Bool) : Int × Transport :=
  (1, { t with can_recv_data := !send_only })

/-- The `pgm_transport_set_recv_only` (transport.c): no `is_bound` guard;
stores `can_send_data := FALSE` and `can_send_nak := !is_passive`. -/
def pgm_transport_set_recv_only (t : Transport) (is_passive : Bool) : Int × Transport :=
  (1, { t with can_send_data := false, can_send_nak := !is_passive })

/-- The `pgm_transport_set_abort_on_reset` (transport.c): no `is_bound` guard;
stores `is_abort_on_reset`. -/
def pgm_transport_set_abort_on_reset (t : Transport) (abort_on_reset : Bool) :
    Int × Transport :=
  (1, { t with is_abort_on_reset := abort_on_reset })

/-- The `pgm_transport_set_nonblocking` (transport.c): no `is_bound` guard;
stores `is_nonblocking`. -/
def pgm_transport_set_nonblocking (t : Transport) (nonblocking : Bool) : Int × Transport :=
  (1, { t with is_nonblocking := nonblocking })

/-! ## Multicast group membership -/

/-- The duplicate test of `pgm_transport_join_group`: an existing entry has
the same group as both its `gsr_group` and `gsr_source` (an ASM entry) and
a matching or wildcard (`0`) interface. -/
def joinGroupDup (gr : GroupReq) (e : GroupSourceReq) : Bool :=
  gr.gr_group = e.gsr_group ∧ gr.gr_group = e.gsr_source ∧
    (gr.gr_interface = e.gsr_interface ∨ e.gsr_interface = 0)

/-- The `pgm_transport_join_group` (transport.c): guards the length argument,
array capacity, and duplicate (group, interface) pairings; then appends a
normalized entry `{interface := 0, group := gr_group, source := gr_group}`
and issues `MCAST_JOIN_GROUP` (outcome `sockRes`). -/
def pgm_transport_join_group (t : Transport) (gr : GroupReq) (len : Nat)
    (sockRes : Int) : Int × Transport :=
  if sizeof_group_req = len ∧ t.recv_gsr.length < IP_MAX_MEMBERSHIPS ∧
      t.recv_gsr.any (joinGroupDup gr) = false then
    (sockRes, { t with recv_gsr := t.recv_gsr ++ [⟨0, gr.gr_group, gr.gr_group⟩] })
  else (-(EINVAL : Int), t)

/-- The per-entry match test of the `pgm_transport_leave_group` removal
loop: same group, and a wildcard requested interface or the entry's
interface. -/
def leaveGroupMatch (gr : GroupReq) (e : GroupSourceReq) : Bool :=
  gr.gr_group = e.gsr_group ∧ (gr.gr_interface = 0 ∨ gr.gr_interface = e.gsr_interface)

/-- The removal loop of `pgm_transport_leave_group`, which drops every
matching entry (shifting the array down with `memmove`). -/
def leaveGroupLoop (gr : GroupReq) : List GroupSourceReq → List GroupSourceReq
  | [] => []
  | e :: rest =>
    if leaveGroupMatch gr e then leaveGroupLoop gr rest
    else e :: leaveGroupLoop gr rest

/-- The `pgm_transport_leave_group` (transport.c): guards the length argument
and `recv_gsr_len == 0` — the guard as written in the source, so any
transport with joined groups is rejected with `-EINVAL` — then runs the
removal loop and issues `MCAST_LEAVE_GROUP` (outcome `sockRes`). -/
def pgm_transport_leave_group (t : Transport) (gr : GroupReq) (len : Nat)
    (sockRes : Int) : Int × Transport :=
  if sizeof_group_req = len ∧ t.recv_gsr.length = 0 then
    (sockRes, { t with recv_gsr := leaveGroupLoop gr t.recv_gsr })
  else (-(EINVAL : Int), t)

/-- Result of the duplicate scan in `pgm_transport_join_source_group`:
either an exact (group, interface, source) duplicate was found (`dup`,
return `-EINVAL`), or the scan stopped (no match, or a group/interface
match with a different source — the `break`) and the append proceeds. -/
inductive JsgScan where
  | dup
  | proceed
deriving DecidableEq, Repr

/-- The duplicate scan loop of `pgm_transport_join_source_group`. -/
def jsgScan (gsr : GroupSourceReq) : List GroupSourceReq → JsgScan
  | [] => .proceed
  | e :: rest =>
    if gsr.gsr_group = e.gsr_group ∧
        (gsr.gsr_interface = e.gsr_interface ∨ e.gsr_interface = 0) then
      if gsr.gsr_source = e.gsr_source then .dup else .proceed
    else jsgScan gsr rest

/-- The `pgm_transport_join_source_group` (transport.c): guards the length
argument, array capacity and the duplicate scan, then executes
`memcpy(&recv_gsr[len], &gsr, sizeof(struct group_source_req))` — copying
the bytes at the address of the *pointer variable* `gsr` (the pointer
value followed by adjacent stack memory), not the pointed-to structure.
Those environment-dependent bytes, reinterpreted as a
`struct group_source_req`, are the `stackBytes` parameter; the appended
entry is `stackBytes`, not `gsr` itself.  Finally issues
`MCAST_JOIN_SOURCE_GROUP` (outcome `sockRes`). -/
def pgm_transport_join_source_group (t : Transport) (gsr : GroupSourceReq)
    (len : Nat) (stackBytes : GroupSourceReq) (sockRes : Int) : Int × Transport :=
  if sizeof_group_source_req = len ∧ t.recv_gsr.length < IP_MAX_MEMBERSHIPS ∧
      jsgScan gsr t.recv_gsr = .proceed then
    (sockRes, { t with recv_gsr := t.recv_gsr ++ [stackBytes] })
  else (-(EINVAL : Int), t)

/-! ## Socket binding -/

/-- A packet emitted on the wire by the transport core. -/
inductive Packet where
  | spm
  | odata
deriving DecidableEq, Repr

/-- Outcomes of the fallible external calls performed by
`pgm_transport_bind`, in the order the source performs them, plus the
clock value `pgm_time_update_now` returns. -/
structure BindEnv where
  notify_init_ok : Bool
  reuseaddr_ok : Bool
  pktinfo_ok : Bool
  hdrincl_ok : Bool
  rcvbuf_ok : Bool
  sndbuf_ok : Bool
  recv_bind_ok : Bool
  send_indextoaddr_ok : Bool
  send_bind_ok : Bool
  send_addr_is_any : Bool
  getnodeaddr_ok : Bool
  ra_bind_ok : Bool
  joins_ok : Bool
  mcast_if_ok : Bool
  mcast_if_ra_ok : Bool
  mloop_ok : Bool
  mhops_ok : Bool
  spm1_ok : Bool
  spm2_ok : Bool
  spm3_ok : Bool
  now : Nat
deriving DecidableEq, Repr

/-- The network-setup steps of `pgm_transport_bind` between the peer
hashtable construction and the SPM phase: socket sharing / packet-info /
header-inclusion options, buffer sizing, the three `bind` calls and the
send-interface resolutions, the group joins, multicast interface,
loopback and hop-limit options (the DSCP step only warns).  None of these
steps mutates the modelled transport state, so bind fails with the state
unchanged when the first failing step is reached; the conjunction below
lists the outcomes in source order. -/
def bindNetworkStepsOk (t : Transport) (env : BindEnv) : Bool :=
  (if t.udp_encap_ucast_port ≠ 0 then env.reuseaddr_ok && env.pktinfo_ok
   else if t.recv_gsr.headI.gsr_group.family = AF_INET then env.hdrincl_ok
   else env.pktinfo_ok) &&
  (t.rcvbuf == 0 || env.rcvbuf_ok) &&
  (t.sndbuf == 0 || env.sndbuf_ok) &&
  env.recv_bind_ok &&
  env.send_indextoaddr_ok &&
  env.send_bind_ok &&
  (!env.send_addr_is_any || env.getnodeaddr_ok) &&
  env.ra_bind_ok &&
  env.joins_ok &&
  env.mcast_if_ok &&
  env.mcast_if_ra_ok &&
  env.mloop_ok &&
  env.mhops_ok

/-- The first mutation of `pgm_transport_bind`: allocating the random
number generator (`rand_ = g_rand_new ()`). -/
def bindStart (t : Transport) : Transport := { t with rand_ := true }

/-- The deterministic field-setup steps of `pgm_transport_bind` between
the notification-channel creation and the first fallible network call:
IP-header size and TSDU/APDU sizing, transmit-window construction when
`can_send_data`, and peer-hashtable construction when `can_recv_data`
(with `pending_notify` recorded first when `can_recv_data`). -/
def bindSetup (t : Transport) : Transport :=
  let t2 := if t.can_recv_data then { t with pending_notify := true } else t
  let iphdr :=
    (if t2.send_gsr.gsr_group.family = AF_INET then sizeof_pgm_ip else sizeof_pgm_ip6_hdr)
      + (if t2.udp_encap_ucast_port ≠ 0 then sizeof_pgm_udphdr else 0)
  let t3 := { t2 with
    iphdr_len := iphdr
    max_tsdu := t2.max_tpdu - iphdr - pgm_transport_pkt_offset false
    max_tsdu_fragment := t2.max_tpdu - iphdr - pgm_transport_pkt_offset true }
  let t4 := { t3 with max_apdu := min PGM_MAX_FRAGMENTS t3.txw_sqns * t3.max_tsdu_fragment }
  let t5 := if t4.can_send_data then { t4 with window := true } else t4
  if t5.can_recv_data then { t5 with peers_hashtable := true } else t5

/-- The rate-regulator construction step of `pgm_transport_bind`:
`pgm_rate_create` runs only when `txw_max_rte` is nonzero. -/
def bindRate (t : Transport) : Transport :=
  if t.txw_max_rte ≠ 0 then { t with rate_control := true } else t

/-- The final mutations of a successful `pgm_transport_bind` on a sending
transport: ambient-SPM timer scheduling, first receive buffer, and the
bound flag. -/
def bindFinishSend (t : Transport) (now : Nat) : Transport :=
  { t with
    next_poll := now + t.spm_ambient_interval
    next_ambient_spm := now + t.spm_ambient_interval
    rx_buffer := true
    is_bound := true }

/-- The final mutations of a successful `pgm_transport_bind` on a
receive-only transport: a 30-second poll timer, first receive buffer, and
the bound flag. -/
def bindFinishRecv (t : Transport) (now : Nat) : Transport :=
  { t with
    next_poll := now + pgm_secs 30
    rx_buffer := true
    is_bound := true }

/-- The `pgm_transport_bind` (transport.c), built under the
`CONFIG_BIND_INADDR_ANY` receive-bind path.  Returns the `gboolean`
result, the transport state at return, and the packets emitted on the
wire during the call.  Failure at any step returns `FALSE` with the state
as mutated so far — the source performs no unwinding: the allocations and
field assignments of completed steps persist. -/
def pgm_transport_bind (t : Transport) (env : BindEnv) : Bool × Transport × List Packet :=
  if t.is_bound then (false, t, []) else
  let t1 := bindStart t
  if t1.can_recv_data ∧ ¬ env.notify_init_ok then (false, t1, []) else
  let t6 := bindSetup t1
  if ¬ bindNetworkStepsOk t6 env then (false, t6, []) else
  if t6.can_send_data then
    let t7 := bindRate t6
    if ¬ env.spm1_ok then (false, t7, []) else
    if ¬ env.spm2_ok then (false, t7, [.spm]) else
    if ¬ env.spm3_ok then (false, t7, [.spm, .spm]) else
    (true, bindFinishSend t7 env.now, [.spm, .spm, .spm])
  else
    (true, bindFinishRecv t6 env.now, [])

/-! ## The `sendto` wrapper (`net.c`) -/

/-- Outcome of one `sendto` system call: bytes accepted, or failure with
the given errno. -/
inductive SendResult where
  | sent (n : Nat)
  | fail (e : Nat)
deriving DecidableEq, Repr

/-- Oracle outcomes of the external calls made by `_pgm_sendto`: the
rate-regulator check (return value and errno), the first `sendto`, the
writability `poll` as a function of its millisecond timeout, and the
retried `sendto`. -/
structure SendtoEnv where
  rate_check : Int
  rate_errno : Nat
  first : SendResult
  poll : Nat → Int
  second : SendResult

/-- The `_pgm_sendto` (net.c): the rate-regulated, mutex-serialized `sendto`
chokepoint.  Returns the `gssize` result and the number of `sendto` calls
issued.  A failing first send whose errno is not `ENETUNREACH`, not
`EHOSTUNREACH`, and not would-block under `MSG_DONTWAIT` triggers a
500 ms writability `poll`; on a positive poll result the send is retried
exactly once. -/
def pgm_sendto (use_rate_limit dontwait : Bool) (env : SendtoEnv) : Int × Nat :=
  if use_rate_limit ∧ env.rate_check < 0 ∧ env.rate_errno = EAGAIN then
    (env.rate_check, 0)
  else
    match env.first with
    | .sent n => ((n : Int), 1)
    | .fail e =>
      if e = ENETUNREACH ∨ e = EHOSTUNREACH ∨ (e = EAGAIN ∧ dontwait) then
        (-1, 1)
      else if 0 < env.poll 500 then
        match env.second with
        | .sent n => ((n : Int), 2)
        | .fail _ => (-1, 2)
      else (-1, 1)

/-! ## Transport creation -/

/-- The `g_htons` on a 16-bit value: byte swap (host assumed little-endian). -/
def htons (x : Nat) : Nat := x % 65536 % 256 * 256 + x % 65536 / 256

/-- The source-port drawing loop of `pgm_transport_create`: repeatedly
draw `g_random_int_range (0, UINT16_MAX)` until `g_htons` of the draw
differs from the (network-order) destination port.  The unbounded C loop
is modelled on the finite prefix `draws` of the random stream; `none`
means the prefix was exhausted before a differing draw appeared. -/
def drawSport (dport : Nat) : List Nat → Option Nat
  | [] => none
  | d :: rest =>
    if htons (d % 65535) = dport then drawSport dport rest
    else some (htons (d % 65535))

/-- The `struct pgm_transport_info_t`: the fields `pgm_transport_create`
reads.  The port fields are `guint16` in the source; the model stores
`Nat` and truncates to 16 bits where the C type does. -/
structure TransportInfo where
  ti_sport : Nat
  ti_dport : Nat
  ti_udp_encap_ucast_port : Nat
  ti_udp_encap_mcast_port : Nat
  ti_recv_addrs : List GroupSourceReq
  ti_send_addrs : List GroupSourceReq
deriving DecidableEq, Repr

/-- Oracle outcomes of the external calls made by `pgm_transport_create`:
the random-port stream prefix and the three `socket` creations. -/
structure CreateEnv where
  draws : List Nat
  recv_sock_ok : Bool
  send_sock_ok : Bool
  ra_sock_ok : Bool
deriving DecidableEq, Repr

/-- A transport with every field zeroed, as `g_malloc0` produces. -/
def zeroTransport : Transport where
  tsi_sport := 0
  dport := 0
  udp_encap_ucast_port := 0
  udp_encap_mcast_port := 0
  send_gsr := ⟨0, ⟨0, 0⟩, ⟨0, 0⟩⟩
  recv_gsr := []
  is_bound := false
  is_destroyed := false
  is_nonblocking := false
  is_abort_on_reset := false
  can_send_data := false
  can_send_nak := false
  can_recv_data := false
  use_multicast_loop := false
  max_tpdu := 0
  max_tsdu := 0
  max_tsdu_fragment := 0
  max_apdu := 0
  hops := 0
  sndbuf := 0
  rcvbuf := 0
  txw_sqns := 0
  txw_secs := 0
  txw_max_rte := 0
  use_proactive_parity := false
  use_ondemand_parity := false
  use_varpkt_len := false
  rs_n := 0
  rs_k := 0
  rs_proactive_h := 0
  spm_ambient_interval := 0
  iphdr_len := 0
  next_poll := 0
  next_ambient_spm := 0
  rand_ := false
  pending_notify := false
  window := false
  peers_hashtable := false
  rate_control := false
  rx_buffer := false

/-- The `pgm_transport_create` (transport.c): validates the info structure
(distinct source/destination ports when the source port is set, paired
UDP-encapsulation ports, 1–20 receive requests sharing one address
family, exactly one send request of that per-entry family), allocates the
zeroed endpoint with the capability flags defaulted to `TRUE`, assigns
the network-order ports (drawing a random source port until it differs
from the destination port when none was supplied), copies the
group-source requests, and opens the three sockets; any failure yields
`none` (every validation failure and socket failure frees the partial
endpoint). -/
def pgm_transport_create (tinfo : TransportInfo) (env : CreateEnv) : Option Transport :=
  let sport16 := tinfo.ti_sport % 65536
  let dport16 := tinfo.ti_dport % 65536
  if (sport16 = 0 ∨ sport16 ≠ dport16) ∧
      (tinfo.ti_udp_encap_ucast_port = 0 ∨ tinfo.ti_udp_encap_mcast_port ≠ 0) ∧
      (tinfo.ti_udp_encap_mcast_port = 0 ∨ tinfo.ti_udp_encap_ucast_port ≠ 0) ∧
      0 < tinfo.ti_recv_addrs.length ∧
      tinfo.ti_recv_addrs.length ≤ IP_MAX_MEMBERSHIPS ∧
      tinfo.ti_send_addrs.length = 1 ∧
      (∀ r ∈ tinfo.ti_recv_addrs,
        r.gsr_group.family = (tinfo.ti_recv_addrs.headI).gsr_group.family ∧
        r.gsr_group.family = r.gsr_source.family) ∧
      (tinfo.ti_send_addrs.headI).gsr_group.family
        = (tinfo.ti_send_addrs.headI).gsr_source.family ∧
      env.recv_sock_ok = true ∧ env.send_sock_ok = true ∧ env.ra_sock_ok = true then
    let dport := htons dport16
    match (if sport16 ≠ 0 then some (htons sport16) else drawSport dport env.draws) with
    | none => none
    | some sport =>
      some { zeroTransport with
        can_send_data := true
        can_send_nak := true
        can_recv_data := true
        tsi_sport := sport
        dport := dport
        udp_encap_ucast_port := tinfo.ti_udp_encap_ucast_port
        udp_encap_mcast_port := tinfo.ti_udp_encap_mcast_port
        send_gsr := tinfo.ti_send_addrs.headI
        recv_gsr := tinfo.ti_recv_addrs }
  else none

/-! ## Concrete fixtures -/

/-- A concrete unbound UDP-encapsulated transport fixture used to evaluate
the embedded operations on explicit inputs. -/
def sampleTransport : Transport := { zeroTransport with
  can_send_data := true
  can_send_nak := true
  can_recv_data := true
  tsi_sport := 1000
  dport := 7500
  udp_encap_ucast_port := 3055
  udp_encap_mcast_port := 3056
  send_gsr := ⟨0, ⟨AF_INET, 100⟩, ⟨AF_INET, 100⟩⟩
  recv_gsr := [⟨0, ⟨AF_INET, 100⟩, ⟨AF_INET, 100⟩⟩]
  max_tpdu := 1500
  hops := 16
  txw_sqns := 1000
  txw_max_rte := 400000
  spm_ambient_interval := 8192 }

/-- The fixture with the bound flag raised. -/
def boundTransport : Transport := { sampleTransport with is_bound := true }

/-- A bind environment in which every external call succeeds. -/
def bindOkEnv : BindEnv where
  notify_init_ok := true
  reuseaddr_ok := true
  pktinfo_ok := true
  hdrincl_ok := true
  rcvbuf_ok := true
  sndbuf_ok := true
  recv_bind_ok := true
  send_indextoaddr_ok := true
  send_bind_ok := true
  send_addr_is_any := false
  getnodeaddr_ok := true
  ra_bind_ok := true
  joins_ok := true
  mcast_if_ok := true
  mcast_if_ra_ok := true
  mloop_ok := true
  mhops_ok := true
  spm1_ok := true
  spm2_ok := true
  spm3_ok := true
  now := 1000

/-- A bind environment in which the `SO_REUSEADDR` socket-option step
fails and every other external call would succeed. -/
def bindReuseFailEnv : BindEnv := { bindOkEnv with reuseaddr_ok := false }

/-- A bind environment in which the first SPM broadcast fails. -/
def bindSpmFailEnv : BindEnv := { bindOkEnv with spm1_ok := false }

/-! ## Helper lemmas -/

/-- The `bindStart` only sets `rand_`. -/
@[simp] theorem bindStart_is_bound (t : Transport) : (bindStart t).is_bound = t.is_bound := rfl

/-- The `bindStart` preserves `can_recv_data`. -/
@[simp] theorem bindStart_can_recv_data (t : Transport) :
    (bindStart t).can_recv_data = t.can_recv_data := rfl

/-- The `bindStart` preserves `can_send_data`. -/
@[simp] theorem bindStart_can_send_data (t : Transport) :
    (bindStart t).can_send_data = t.can_send_data := rfl

/-- The `bindStart` preserves `pending_notify`. -/
@[simp] theorem bindStart_pending_notify (t : Transport) :
    (bindStart t).pending_notify = t.pending_notify := rfl

/-- The `bindStart` preserves `window`. -/
@[simp] theorem bindStart_window (t : Transport) : (bindStart t).window = t.window := rfl

/-- The `bindStart` preserves `peers_hashtable`. -/
@[simp] theorem bindStart_peers_hashtable (t : Transport) :
    (bindStart t).peers_hashtable = t.peers_hashtable := rfl

/-- The `bindStart` preserves `spm_ambient_interval`. -/
@[simp] theorem bindStart_spm_ambient_interval (t : Transport) :
    (bindStart t).spm_ambient_interval = t.spm_ambient_interval := rfl

/-- The `bindRate` never touches the bound flag. -/
@[simp] theorem bindRate_is_bound (t : Transport) : (bindRate t).is_bound = t.is_bound := by
  unfold bindRate; split_ifs <;> rfl

/-- The `bindRate` preserves `pending_notify`. -/
@[simp] theorem bindRate_pending_notify (t : Transport) :
    (bindRate t).pending_notify = t.pending_notify := by
  unfold bindRate; split_ifs <;> rfl

/-- The `bindRate` preserves `window`. -/
@[simp] theorem bindRate_window (t : Transport) : (bindRate t).window = t.window := by
  unfold bindRate; split_ifs <;> rfl

/-- The `bindRate` preserves `peers_hashtable`. -/
@[simp] theorem bindRate_peers_hashtable (t : Transport) :
    (bindRate t).peers_hashtable = t.peers_hashtable := by
  unfold bindRate; split_ifs <;> rfl

/-- The `bindRate` preserves `spm_ambient_interval`. -/
@[simp] theorem bindRate_spm_ambient_interval (t : Transport) :
    (bindRate t).spm_ambient_interval = t.spm_ambient_interval := by
  unfold bindRate; split_ifs <;> rfl

/-- The `bindFinishSend` raises the bound flag. -/
@[simp] theorem bindFinishSend_is_bound (t : Transport) (now : Nat) :
    (bindFinishSend t now).is_bound = true := rfl

/-- The `bindFinishSend` schedules the ambient SPM timer. -/
@[simp] theorem bindFinishSend_next_ambient_spm (t : Transport) (now : Nat) :
    (bindFinishSend t now).next_ambient_spm = now + t.spm_ambient_interval := rfl

/-- The `bindFinishRecv` raises the bound flag. -/
@[simp] theorem bindFinishRecv_is_bound (t : Transport) (now : Nat) :
    (bindFinishRecv t now).is_bound = true := rfl

/-- The `bindSetup` never touches the bound flag. -/
@[simp] theorem bindSetup_is_bound (t : Transport) :
    (bindSetup t).is_bound = t.is_bound := by
  cases hr : t.can_recv_data <;> cases hs : t.can_send_data <;> simp [bindSetup, hr, hs]

/-- The `bindSetup` records the notification channel when `can_recv_data`. -/
@[simp] theorem bindSetup_pending_notify (t : Transport) :
    (bindSetup t).pending_notify = (t.pending_notify || t.can_recv_data) := by
  cases hr : t.can_recv_data <;> cases hs : t.can_send_data <;> simp [bindSetup, hr, hs]

/-- The `bindSetup` constructs the transmit window when `can_send_data`. -/
@[simp] theorem bindSetup_window (t : Transport) :
    (bindSetup t).window = (t.window || t.can_send_data) := by
  cases hr : t.can_recv_data <;> cases hs : t.can_send_data <;> simp [bindSetup, hr, hs]

/-- The `bindSetup` constructs the peer hashtable when `can_recv_data`. -/
@[simp] theorem bindSetup_peers_hashtable (t : Transport) :
    (bindSetup t).peers_hashtable = (t.peers_hashtable || t.can_recv_data) := by
  cases hr : t.can_recv_data <;> cases hs : t.can_send_data <;> simp [bindSetup, hr, hs]

/-- The `bindSetup` preserves `can_send_data`. -/
@[simp] theorem bindSetup_can_send_data (t : Transport) :
    (bindSetup t).can_send_data = t.can_send_data := by
  cases hr : t.can_recv_data <;> cases hs : t.can_send_data <;> simp [bindSetup, hr, hs]

/-- The `bindSetup` preserves `can_recv_data`. -/
@[simp] theorem bindSetup_can_recv_data (t : Transport) :
    (bindSetup t).can_recv_data = t.can_recv_data := by
  cases hr : t.can_recv_data <;> cases hs : t.can_send_data <;> simp [bindSetup, hr, hs]

/-- The `bindSetup` preserves the rate limit. -/
@[simp] theorem bindSetup_txw_max_rte (t : Transport) :
    (bindSetup t).txw_max_rte = t.txw_max_rte := by
  cases hr : t.can_recv_data <;> cases hs : t.can_send_data <;> simp [bindSetup, hr, hs]

/-- The `bindSetup` preserves the ambient SPM interval. -/
@[simp] theorem bindSetup_spm_ambient_interval (t : Transport) :
    (bindSetup t).spm_ambient_interval = t.spm_ambient_interval := by
  cases hr : t.can_recv_data <;> cases hs : t.can_send_data <;> simp [bindSetup, hr, hs]

/-- On the range `[0, 128]` relevant to `set_fec`, the C power-of-two test
`(k & (k-1)) == 0` together with `2 ≤ k` coincides with being a power of
two with exponent below 8. -/
theorem land_pred_eq_zero_iff_pow2 :
    ∀ k < 129, 2 ≤ k → ((k &&& (k - 1) = 0) ↔ ∃ j < 8, k = 2 ^ j) := by decide

/-- The `htons` is injective on 16-bit values. -/
theorem htons_inj (a b : Nat) (ha : a < 65536) (hb : b < 65536)
    (h : htons a = htons b) : a = b := by
  unfold htons at h
  omega

/-- The source-port drawing loop only ever returns a port distinct from
the destination port. -/
theorem drawSport_ne (dport : Nat) (l : List Nat) (s : Nat)
    (h : drawSport dport l = some s) : s ≠ dport := by
  induction l with
  | nil => simp [drawSport] at h
  | cons d rest ih =>
    unfold drawSport at h
    split_ifs at h with hd
    · exact ih h
    · cases h
      exact hd

/-- Any power of two that is at most 128 has exponent below 8. -/
theorem pow2_le_128_exp_lt (j : Nat) (h : 2 ^ j ≤ 128) : j < 8 := by
  by_contra hge
  push_neg at hge
  have h8 : (2 : Nat) ^ 8 ≤ 2 ^ j := Nat.pow_le_pow_right (by norm_num) hge
  have : (2 : Nat) ^ 8 ≤ 128 := le_trans h8 h
  norm_num at this

/-! ## Claim theorems -/

/-- C2 counterexample: on a bound transport `pgm_transport_set_nonblocking`
does not return failure — it returns `TRUE` and mutates the configuration,
refuting the claim that every `set_*` configurator rejects when
`is_bound`. -/
theorem C2_counterexample :
    boundTransport.is_bound = true ∧
    (pgm_transport_set_nonblocking boundTransport true).1 ≠ 0 ∧
    (pgm_transport_set_nonblocking boundTransport true).2 ≠ boundTransport := by
  refine ⟨rfl, by decide, by decide⟩

/-- C2 (amended): on a bound transport the configurators `set_max_tpdu`,
`set_multicast_loop`, `set_hops`, `set_sndbuf`, `set_rcvbuf` return
failure and leave the transport unchanged; the configurators
`set_send_only`, `set_recv_only`, `set_abort_on_reset`, `set_nonblocking`
succeed and mutate their fields regardless, and `set_fec` does not
consult `is_bound` at all. -/
theorem C2_bound_configurator_behaviour (t : Transport) (h : t.is_bound = true)
    (v : Nat) (b : Bool) (hp sz : Int) (mx : Option Int)
    (ph n k : Nat) (od vp : Bool) :
    pgm_transport_set_max_tpdu t v = (0, t) ∧
    pgm_transport_set_multicast_loop t b = (0, t) ∧
    pgm_transport_set_hops t hp = (0, t) ∧
    pgm_transport_set_sndbuf t sz mx = (0, t) ∧
    pgm_transport_set_rcvbuf t sz mx = (0, t) ∧
    pgm_transport_set_send_only t b = (1, { t with can_recv_data := !b }) ∧
    pgm_transport_set_recv_only t b
      = (1, { t with can_send_data := false, can_send_nak := !b }) ∧
    pgm_transport_set_abort_on_reset t b = (1, { t with is_abort_on_reset := b }) ∧
    pgm_transport_set_nonblocking t b = (1, { t with is_nonblocking := b }) ∧
    (pgm_transport_set_fec t ph od vp n k).1
      = (pgm_transport_set_fec { t with is_bound := false } ph od vp n k).1 := by
  refine ⟨?_, ?_, ?_, ?_, ?_, rfl, rfl, rfl, rfl, ?_⟩
  · simp [pgm_transport_set_max_tpdu, h]
  · simp [pgm_transport_set_multicast_loop, h]
  · simp [pgm_transport_set_hops, h]
  · simp [pgm_transport_set_sndbuf, h]
  · simp [pgm_transport_set_rcvbuf, h]
  · unfold pgm_transport_set_fec
    split_ifs <;> rfl

/-- C2 witness: the amended statement instantiated on the bound fixture. -/
theorem C2_witness :
    boundTransport.is_bound = true ∧
    pgm_transport_set_max_tpdu boundTransport 1500 = (0, boundTransport) :=
  ⟨rfl, (C2_bound_configurator_behaviour boundTransport rfl 1500 true 16 1024
    none 0 255 128 false false).1⟩

/-- C8: `pgm_transport_set_fec` succeeds exactly when `k` is a power of
two in `[2,128]`, `n ∈ [k+1,255]`, `proactive_h ≤ n−k`, and — vacuously,
since `k ≤ 128` — the `k > 223` ratio condition holds; on success it
stores `n`, `k`, `proactive_h` and the parity/variable-length flags, and
on failure no configuration field changes. -/
theorem C8_set_fec_characterization (t : Transport) (ph : Nat) (od vp : Bool)
    (n k : Nat) :
    ((pgm_transport_set_fec t ph od vp n k).1 = 1 ↔
      ((∃ j, k = 2 ^ j) ∧ 2 ≤ k ∧ k ≤ 128 ∧ k + 1 ≤ n ∧ n ≤ 255 ∧
        ph ≤ n - k ∧ (223 < k → 1 ≤ (n - k) * 223 / k))) ∧
    ((pgm_transport_set_fec t ph od vp n k).1 = 1 →
      (pgm_transport_set_fec t ph od vp n k).2 = { t with
        use_proactive_parity := 0 < ph
        use_ondemand_parity := od
        use_varpkt_len := vp
        rs_n := n
        rs_k := k
        rs_proactive_h := ph }) ∧
    ((pgm_transport_set_fec t ph od vp n k).1 ≠ 1 →
      (pgm_transport_set_fec t ph od vp n k).2 = t) := by
  unfold pgm_transport_set_fec
  split_ifs with hc
  · obtain ⟨hpow, ⟨hk2, hk128⟩, ⟨hn1, hn2⟩, hph, -⟩ := hc
    obtain ⟨j, -, hj⟩ := (land_pred_eq_zero_iff_pow2 k (by omega) hk2).1 hpow
    refine ⟨⟨fun _ => ?_, fun _ => rfl⟩, fun _ => rfl, fun hne => absurd rfl hne⟩
    exact ⟨⟨j, hj⟩, hk2, hk128, hn1, hn2, hph, fun hgt => absurd hgt (by omega)⟩
  · refine ⟨⟨fun h0 => absurd h0 (by simp), fun hr => absurd ?_ hc⟩,
      fun h0 => absurd h0 (by simp), fun _ => rfl⟩
    obtain ⟨⟨j, hj⟩, hk2, hk128, hn1, hn2, hph, -⟩ := hr
    refine ⟨?_, ⟨hk2, hk128⟩, ⟨hn1, hn2⟩, hph, fun hgt => by omega⟩
    refine (land_pred_eq_zero_iff_pow2 k (by omega) hk2).2 ⟨j, ?_, hj⟩
    exact pow2_le_128_exp_lt j (hj ▸ hk128)

/-- C8 witness: a successful FEC configuration RS(255,128) with 32
proactive parity packets on the fixture. -/
theorem C8_witness :
    (pgm_transport_set_fec sampleTransport 32 true true 255 128).1 = 1 ∧
    (pgm_transport_set_fec sampleTransport 32 true true 255 128).2
      = { sampleTransport with
          use_proactive_parity := true
          use_ondemand_parity := true
          use_varpkt_len := true
          rs_n := 255
          rs_k := 128
          rs_proactive_h := 32 } := by
  have h := C8_set_fec_characterization sampleTransport 32 true true 255 128
  have h1 : (pgm_transport_set_fec sampleTransport 32 true true 255 128).1 = 1 :=
    h.1.2 ⟨⟨7, by norm_num⟩, by norm_num, by norm_num, by norm_num, by norm_num,
      by norm_num, fun hgt => absurd hgt (by norm_num)⟩
  refine ⟨h1, ?_⟩
  have h2 := h.2.1 h1
  simpa using h2


set_option maxHeartbeats 1600000 in
/-- C1 counterexample: binding the fixture in an environment where the
socket-sharing step fails returns failure, yet the transport's state is
not the pre-call state — the notification channel, transmit window and
peer hashtable created by the earlier steps remain observable. -/
theorem C1_counterexample :
    (pgm_transport_bind sampleTransport bindReuseFailEnv).1 = false ∧
    ¬ ((pgm_transport_bind sampleTransport bindReuseFailEnv).2.1.window
        = sampleTransport.window ∧
      (pgm_transport_bind sampleTransport bindReuseFailEnv).2.1.peers_hashtable
        = sampleTransport.peers_hashtable ∧
      (pgm_transport_bind sampleTransport bindReuseFailEnv).2.1.pending_notify
        = sampleTransport.pending_notify) := by
  constructor
  · decide
  · decide

set_option maxHeartbeats 1600000 in
/-- C1 (amended): a failed `pgm_transport_bind` never sets `is_bound`
(the flag is unchanged), but completed earlier steps are not unwound:
whatever of the notification channel, transmit window and peer hashtable
existed before the call still exists after it. -/
theorem C1_bind_failure_no_rollback (t : Transport) (env : BindEnv)
    (h : (pgm_transport_bind t env).1 = false) :
    (pgm_transport_bind t env).2.1.is_bound = t.is_bound ∧
    (t.pending_notify = true → (pgm_transport_bind t env).2.1.pending_notify = true) ∧
    (t.window = true → (pgm_transport_bind t env).2.1.window = true) ∧
    (t.peers_hashtable = true → (pgm_transport_bind t env).2.1.peers_hashtable = true) := by
  simp only [pgm_transport_bind] at h ⊢
  split_ifs at h ⊢ <;> simp_all

set_option maxHeartbeats 1600000 in
/-- C1 witness: the amended statement evaluated on the failing fixture. -/
theorem C1_witness :
    (pgm_transport_bind sampleTransport bindReuseFailEnv).1 = false ∧
    (pgm_transport_bind sampleTransport bindReuseFailEnv).2.1.is_bound
      = sampleTransport.is_bound :=
  ⟨by decide, (C1_bind_failure_no_rollback sampleTransport bindReuseFailEnv (by decide)).1⟩

set_option maxHeartbeats 1600000 in
/-- C6: on a transport that can send data, a successful bind emits
exactly three SPM packets (and nothing else) before returning and
schedules the next ambient SPM at `now + spm_ambient_interval`; and if
any of the three SPM sends fails, bind returns failure. -/
theorem C6_bind_three_ambient_spms (t : Transport) (env : BindEnv)
    (h : t.can_send_data = true) :
    ((pgm_transport_bind t env).1 = true →
      (pgm_transport_bind t env).2.2 = [Packet.spm, Packet.spm, Packet.spm] ∧
      (pgm_transport_bind t env).2.1.next_ambient_spm
        = env.now + t.spm_ambient_interval) ∧
    (¬ (env.spm1_ok = true ∧ env.spm2_ok = true ∧ env.spm3_ok = true) →
      (pgm_transport_bind t env).1 = false) := by
  simp only [pgm_transport_bind]
  split_ifs <;> simp_all

set_option maxHeartbeats 1600000 in
/-- C6 witness: binding the fixture in the all-success environment emits
the three SPMs and schedules the ambient timer; in the environment whose
first SPM send fails, bind fails. -/
theorem C6_witness :
    sampleTransport.can_send_data = true ∧
    ((pgm_transport_bind sampleTransport bindOkEnv).2.2
        = [Packet.spm, Packet.spm, Packet.spm] ∧
      (pgm_transport_bind sampleTransport bindOkEnv).2.1.next_ambient_spm
        = bindOkEnv.now + sampleTransport.spm_ambient_interval) ∧
    (pgm_transport_bind sampleTransport bindSpmFailEnv).1 = false := by
  refine ⟨rfl, ?_, ?_⟩
  · exact (C6_bind_three_ambient_spms sampleTransport bindOkEnv rfl).1 (by decide)
  · exact (C6_bind_three_ambient_spms sampleTransport bindSpmFailEnv rfl).2 (by decide)


/-- The SSM join request used to evaluate `pgm_transport_join_source_group`
on a concrete input. -/
def jsgRequest : GroupSourceReq := ⟨1, ⟨AF_INET, 9⟩, ⟨AF_INET, 10⟩⟩

/-- A concrete value of the stack bytes at `&gsr` that
`pgm_transport_join_source_group` copies in place of the pointee. -/
def jsgStackBytes : GroupSourceReq := ⟨0, ⟨0, 0⟩, ⟨0, 0⟩⟩

/-- An ASM group request whose group is joined by no entry of the
`sampleTransport` fixture. -/
def leaveAbsentReq : GroupReq := ⟨0, ⟨AF_INET, 7⟩⟩

/-- C3: evaluated on a transport with no joined groups, a join-source-group
request appends the reinterpreted bytes of the pointer variable — not the
pointed-to structure: the stored entry differs from the request. -/
theorem C3_join_source_group_stores_pointer_bytes :
    (pgm_transport_join_source_group zeroTransport jsgRequest
        sizeof_group_source_req jsgStackBytes 0).2.recv_gsr = [jsgStackBytes] ∧
    jsgStackBytes ≠ jsgRequest := by
  exact ⟨by decide, by decide⟩

/-- C4: on the fixture (one joined group) and a group present in no entry,
`pgm_transport_leave_group` returns `-EINVAL` — not the result of the
underlying `setsockopt` (here `0`) — because its guard demands
`recv_gsr_len == 0`; the list is left unchanged. -/
theorem C4_leave_group_rejects_when_nonempty :
    (∀ e ∈ sampleTransport.recv_gsr, leaveGroupMatch leaveAbsentReq e = false) ∧
    sampleTransport.recv_gsr ≠ [] ∧
    pgm_transport_leave_group sampleTransport leaveAbsentReq sizeof_group_req 0
      = (-(EINVAL : Int), sampleTransport) ∧
    -(EINVAL : Int) ≠ (0 : Int) := by
  refine ⟨by decide, by decide, by decide, by decide⟩

/-- C5: whatever the starting state, after `join_group` is called twice
with the same group request, the second call returns `-EINVAL` and leaves
the receive group-source list (indeed the whole transport) unchanged. -/
theorem C5_second_join_group_rejected (t : Transport) (gr : GroupReq)
    (len : Nat) (r1 r2 : Int) :
    (pgm_transport_join_group (pgm_transport_join_group t gr len r1).2 gr len r2).1
      = -(EINVAL : Int) ∧
    (pgm_transport_join_group (pgm_transport_join_group t gr len r1).2 gr len r2).2
      = (pgm_transport_join_group t gr len r1).2 := by
  unfold pgm_transport_join_group
  split_ifs with h1 h2
  · exfalso
    rcases h2 with ⟨-, -, hany⟩
    simp [List.any_append, joinGroupDup] at hany
  · exact ⟨rfl, rfl⟩
  · exact ⟨rfl, rfl⟩

/-- C10: whenever the guards of `pgm_transport_join_group` pass, the
appended entry is normalized — interface `0` and source equal to the
requested group — regardless of the requested interface. -/
theorem C10_join_group_appends_normalized (t : Transport) (gr : GroupReq)
    (len : Nat) (r : Int)
    (hlen : sizeof_group_req = len)
    (hcap : t.recv_gsr.length < IP_MAX_MEMBERSHIPS)
    (hdup : t.recv_gsr.any (joinGroupDup gr) = false) :
    pgm_transport_join_group t gr len r
      = (r, { t with recv_gsr := t.recv_gsr ++ [⟨0, gr.gr_group, gr.gr_group⟩] }) := by
  unfold pgm_transport_join_group
  rw [if_pos ⟨hlen, hcap, hdup⟩]

/-- C10 witness: joining group `(AF_INET, 9)` on interface `5` from the
empty fixture appends `{interface 0, group (AF_INET,9), source (AF_INET,9)}`. -/
theorem C10_witness :
    zeroTransport.recv_gsr.any (joinGroupDup ⟨5, ⟨AF_INET, 9⟩⟩) = false ∧
    (pgm_transport_join_group zeroTransport ⟨5, ⟨AF_INET, 9⟩⟩
        sizeof_group_req 0).2.recv_gsr = [⟨0, ⟨AF_INET, 9⟩, ⟨AF_INET, 9⟩⟩] := by
  refine ⟨by decide, ?_⟩
  rw [C10_join_group_appends_normalized zeroTransport ⟨5, ⟨AF_INET, 9⟩⟩
    sizeof_group_req 0 rfl (by decide) (by decide)]
  rfl


/-- A transport-info fixture with an explicit nonzero source port. -/
def tinfoExplicit : TransportInfo where
  ti_sport := 1000
  ti_dport := 7500
  ti_udp_encap_ucast_port := 3055
  ti_udp_encap_mcast_port := 3056
  ti_recv_addrs := [⟨0, ⟨AF_INET, 100⟩, ⟨AF_INET, 100⟩⟩]
  ti_send_addrs := [⟨0, ⟨AF_INET, 100⟩, ⟨AF_INET, 100⟩⟩]

/-- A creation environment where every socket opens and the random stream
begins with the value `7500`. -/
def createOkEnv : CreateEnv where
  draws := [7500, 7500, 42]
  recv_sock_ok := true
  send_sock_ok := true
  ra_sock_ok := true

/-- The transport the fixture creation yields. -/
def createdTransport : Transport :=
  (pgm_transport_create tinfoExplicit createOkEnv).getD zeroTransport

/-- C9: every transport that `pgm_transport_create` returns has a local
source port distinct from the destination port — by validation when the
caller supplied a nonzero source port, and by the redraw loop when the
source port was left zero. -/
theorem C9_create_sport_ne_dport (tinfo : TransportInfo) (env : CreateEnv)
    (t : Transport) (h : pgm_transport_create tinfo env = some t) :
    t.tsi_sport ≠ t.dport := by
  simp only [pgm_transport_create] at h
  split_ifs at h with hc hs
  · obtain ⟨hport, -⟩ := hc
    simp only [Option.some.injEq] at h
    subst h
    simp only []
    intro heq
    have h16 : tinfo.ti_sport % 65536 = tinfo.ti_dport % 65536 :=
      htons_inj _ _ (Nat.mod_lt _ (by norm_num)) (Nat.mod_lt _ (by norm_num)) heq
    rcases hport with h0 | hne
    · exact hs h0
    · exact hne h16
  · rcases hd : drawSport (htons (tinfo.ti_dport % 65536)) env.draws with - | s
    · rw [hd] at h
      simp at h
    · rw [hd] at h
      simp only [Option.some.injEq] at h
      subst h
      exact drawSport_ne _ _ _ hd

/-- C9 witness: the fixture creation succeeds and the theorem yields
distinct ports on it. -/
theorem C9_witness :
    pgm_transport_create tinfoExplicit createOkEnv = some createdTransport ∧
    createdTransport.tsi_sport ≠ createdTransport.dport :=
  ⟨by decide, C9_create_sport_ne_dport tinfoExplicit createOkEnv createdTransport (by decide)⟩


/-- A concrete `_pgm_sendto` environment: the rate check passes, the
first send fails with `EINTR`-like errno `4`, the 500 ms writability
poll reports one ready descriptor, and the retried send accepts 100
bytes. -/
def sendtoRetryEnv : SendtoEnv where
  rate_check := 0
  rate_errno := 0
  first := SendResult.fail 4
  poll := fun _ => 1
  second := SendResult.sent 100

/-- C7: `_pgm_sendto` issues a second `sendto` (a single retry) exactly
when the call was not short-circuited by a would-block rate check, the
first send failed with an errno other than `ENETUNREACH` and
`EHOSTUNREACH` that is not would-block under `MSG_DONTWAIT`, and the
500 ms writability poll returned a positive count; and it never issues
more than two sends. -/
theorem C7_sendto_retry_characterization (url dw : Bool) (env : SendtoEnv) :
    ((pgm_sendto url dw env).2 = 2 ↔
      ¬ (url = true ∧ env.rate_check < 0 ∧ env.rate_errno = EAGAIN) ∧
      (∃ e, env.first = SendResult.fail e ∧ e ≠ ENETUNREACH ∧ e ≠ EHOSTUNREACH ∧
        ¬ (e = EAGAIN ∧ dw = true)) ∧
      0 < env.poll 500) ∧
    (pgm_sendto url dw env).2 ≤ 2 := by
  unfold pgm_sendto
  by_cases h1 : url = true ∧ env.rate_check < 0 ∧ env.rate_errno = EAGAIN
  · rw [if_pos h1]
    exact ⟨⟨fun h0 => absurd h0 (by simp), fun hr => absurd h1 hr.1⟩, by simp⟩
  · rw [if_neg h1]
    cases hf : env.first with
    | sent n =>
      dsimp only
      refine ⟨⟨fun h0 => absurd h0 (by simp), fun hr => ?_⟩, by simp⟩
      obtain ⟨-, ⟨e, he, -⟩, -⟩ := hr
      exact SendResult.noConfusion he
    | fail e =>
      dsimp only
      by_cases h2 : e = ENETUNREACH ∨ e = EHOSTUNREACH ∨ (e = EAGAIN ∧ dw = true)
      · rw [if_pos h2]
        refine ⟨⟨fun h0 => absurd h0 (by simp), fun hr => ?_⟩, by simp⟩
        obtain ⟨-, ⟨e2, he2, hnet, hhost, hblock⟩, -⟩ := hr
        cases he2
        rcases h2 with hn | hh | hb
        · exact (hnet hn).elim
        · exact (hhost hh).elim
        · exact (hblock hb).elim
      · rw [if_neg h2]
        by_cases h3 : 0 < env.poll 500
        · rw [if_pos h3]
          refine ⟨⟨fun _ => ?_, fun _ => ?_⟩, ?_⟩
          · exact ⟨h1, ⟨e, rfl, fun hn => h2 (Or.inl hn),
              fun hh => h2 (Or.inr (Or.inl hh)),
              fun hb => h2 (Or.inr (Or.inr hb))⟩, h3⟩
          · cases env.second <;> rfl
          · cases env.second <;> simp
        · rw [if_neg h3]
          exact ⟨⟨fun h0 => absurd h0 (by simp), fun hr => absurd hr.2.2 h3⟩, by simp⟩

/-- C7 witness: the characterization evaluated on the concrete retry
environment — the blocking send path retries exactly once. -/
theorem C7_witness :
    (pgm_sendto false false sendtoRetryEnv).2 = 2 :=
  (C7_sendto_retry_characterization false false sendtoRetryEnv).1.2
    ⟨by simp, ⟨4, rfl, by decide, by decide, by decide⟩, by norm_num [sendtoRetryEnv]⟩

end OpenPGM
